import Mathlib

/-!
Shallow embedding of the ScaleODM control plane (hotosm/ScaleODM) in Lean 4,
used to settle the claims of the natural-language specification against the
Go source.  Each definition mirrors one Go function or SQL statement; the
source file and symbol are named in the doc comment.
-/

namespace ScaleODM

/-! ### Go string helpers

Lean counterparts of the `strings` standard-library calls used by the code.
They are implemented on `String.data` (the character list) so that every
definition is executable and kernel-reducible.
-/

/-- Go `strings.HasSuffix(s, suf)`: `len(s) >= len(suf) && s[len(s)-len(suf):] == suf`. -/
def goHasSuffix (s suf : String) : Bool :=
  decide (suf.data.length ≤ s.data.length) &&
    (s.data.drop (s.data.length - suf.data.length) == suf.data)

/-- Go `strings.HasPrefix(s, p)`: `len(s) >= len(p) && s[:len(p)] == p`. -/
def goStartsWith (s p : String) : Bool :=
  decide (p.data.length ≤ s.data.length) && (s.data.take p.data.length == p.data)

/-- Go `strings.TrimSuffix(s, suf)`: removes ONE occurrence of `suf` when present. -/
def goTrimSuffix (s suf : String) : String :=
  if goHasSuffix s suf then String.mk (s.data.take (s.data.length - suf.data.length)) else s

/-- Substring scan on character lists (Go `strings.Contains` semantics:
`sub` occurs somewhere in `l`). -/
def listContainsSub : List Char → List Char → Bool
  | [], sub => sub.isEmpty
  | l@(_ :: t), sub => sub.isPrefixOf l || listContainsSub t sub

/-- Go `strings.Contains(s, sub)` (substring test). -/
def goContains (s sub : String) : Bool :=
  listContainsSub s.data sub.data

/-- Go `strings.ToLower(s)` (ASCII-relevant part used by the code). -/
def goToLower (s : String) : String :=
  String.mk (s.data.map Char.toLower)

/-- Number of trailing `'/'` characters of a string (used to state the
    path-normalization claims). -/
def trailingSlashCount (s : String) : Nat :=
  (s.data.reverse.takeWhile (fun c => c == '/')).length

/-! ### Phase and status mappings -/

/-- NodeODM status code constants, `app/api/odm_routes.go`. -/
def StatusCodeQueued : Nat := 10

def StatusCodeRunning : Nat := 20

def StatusCodeFailed : Nat := 30

def StatusCodeCompleted : Nat := 40

def StatusCodeCanceled : Nat := 50

/-- `app/meta/job.go` `MapArgoPhaseToJobStatus`: converts an Argo workflow
phase to the database job status string. -/
def MapArgoPhaseToJobStatus (phase : String) : String :=
  if phase = "Pending" then "pending"
  else if phase = "Running" then "running"
  else if phase = "Succeeded" then "completed"
  else if phase = "Failed" ∨ phase = "Error" then "failed"
  else "pending"

/-- `app/api/odm_routes.go` `jobStatusToStatusCode`: maps the stored
job-status string to the NodeODM status code. -/
def jobStatusToStatusCode (status : String) : Nat :=
  let s := goToLower status
  if s = "pending" ∨ s = "claimed" then StatusCodeQueued
  else if s = "running" then StatusCodeRunning
  else if s = "completed" then StatusCodeCompleted
  else if s = "failed" then StatusCodeFailed
  else StatusCodeQueued

/-- `app/api/odm_routes.go` `jobStatusToProgress`. -/
def jobStatusToProgress (status : String) : Nat :=
  let s := goToLower status
  if s = "pending" ∨ s = "claimed" then 0
  else if s = "running" then 50
  else if s = "completed" then 100
  else if s = "failed" then 0
  else 0

/-! ### Metadata rows and the store -/

/-- One row of `scaleodm_job_metadata` (`app/db/schema.sql`), as scanned into
`meta.JobMetadata` (`app/meta/job.go`).  Timestamps are abstract instants. -/
structure JobRow where
  id : Nat
  clusterURL : String
  workflowName : String
  odmProjectID : String
  readS3Path : String
  writeS3Path : String
  odmFlags : List String
  s3Region : String
  jobStatus : String
  createdAt : Int
  startedAt : Option Int
  completedAt : Option Int
  errorMessage : Option String
deriving DecidableEq, Repr

/-- The `DEFAULT` of the `job_status` column in `app/db/schema.sql`
(`job_status TEXT DEFAULT 'pending'`). -/
def jobStatusColumnDefault : String := "pending"

/-- `app/meta/job.go` `CreateJob`: the `INSERT` names neither `job_status` nor
the timestamp columns, so the schema defaults apply (`job_status = 'pending'`,
`started_at`/`completed_at`/`error_message` null). -/
def createJobRow (clusterURL workflowName projectID readPath writePath : String)
    (odmFlags : List String) (s3Region : String) (id : Nat) (createdAt : Int) : JobRow :=
  { id := id
    clusterURL := clusterURL
    workflowName := workflowName
    odmProjectID := projectID
    readS3Path := readPath
    writeS3Path := writePath
    odmFlags := odmFlags
    s3Region := s3Region
    jobStatus := jobStatusColumnDefault
    createdAt := createdAt
    startedAt := none
    completedAt := none
    errorMessage := none }

/-- `app/meta/job.go` `UpdateJobStatus`, row-level semantics of the SQL
`UPDATE`:
`started_at = CASE WHEN $2 = 'running' AND started_at IS NULL THEN NOW() ELSE started_at END`,
`completed_at = CASE WHEN $2 IN ('completed','failed') AND completed_at IS NULL THEN NOW() ELSE completed_at END`,
`error_message = $3`.  `now` stands for `NOW()` at the time of the call. -/
def updateJobStatusRow (r : JobRow) (status : String) (errorMsg : Option String)
    (now : Int) : JobRow :=
  { r with
    jobStatus := status
    startedAt :=
      if status = "running" ∧ r.startedAt = none then some now else r.startedAt
    completedAt :=
      if (status = "completed" ∨ status = "failed") ∧ r.completedAt = none then some now
      else r.completedAt
    errorMessage := errorMsg }

/-- One `UpdateJobStatus` call: the status written, the error message, and the
value of `NOW()` at that call. -/
structure StatusUpdate where
  status : String
  errorMsg : Option String
  now : Int
deriving DecidableEq, Repr

/-- A sequence of `UpdateJobStatus` calls applied to one row. -/
def applyStatusUpdates (r : JobRow) (us : List StatusUpdate) : JobRow :=
  us.foldl (fun acc u => updateJobStatusRow acc u.status u.errorMsg u.now) r

/-- The metadata table, keyed by `workflow_name` (unique). -/
def getJob (store : List JobRow) (name : String) : Option JobRow :=
  store.find? (fun r => r.workflowName == name)

/-- `app/meta/job.go` `DeleteJob`: `DELETE … WHERE workflow_name = $1`;
errors with "job not found" when `RowsAffected() == 0`. -/
def deleteJob (store : List JobRow) (name : String) : Except String (List JobRow) :=
  let remaining := store.filter (fun r => ¬ r.workflowName == name)
  if remaining.length = store.length then Except.error "job not found"
  else Except.ok remaining

end ScaleODM

namespace ScaleODM

/-! ### The workflow engine (modeled collaborator) -/

/-- The engine-side workflow object: name, phase, message
(spec §3 `WorkflowObject`; Argo `wfv1.Workflow` as used by the code). -/
structure Workflow where
  name : String
  phase : String
  message : String
deriving DecidableEq, Repr

/-- `GetWorkflow` against a reachable engine holding `engine`. -/
def engineGet (engine : List Workflow) (name : String) : Option Workflow :=
  engine.find? (fun w => w.name == name)

/-- The "not found" error string produced by a failed `DeleteWorkflow`
(the handlers only ever test it with `strings.Contains(err, "not found")`). -/
def workflowNotFoundErr (name : String) : String :=
  "failed to delete workflow: " ++ name ++ " not found"

/-- `DeleteWorkflow` against a reachable engine: deletes the object, or fails
with an error containing "not found" when it is absent. -/
def engineDelete (engine : List Workflow) (name : String) :
    Except String (List Workflow) :=
  if (engineGet engine name).isSome then
    Except.ok (engine.filter (fun w => ¬ w.name == name))
  else Except.error (workflowNotFoundErr name)

/-- Combined durable + engine state seen by one handler invocation. -/
structure SystemState where
  engine : List Workflow
  store : List JobRow
deriving DecidableEq, Repr

end ScaleODM

namespace ScaleODM

/-! ### Options and ODM flags (`/task/new` and `/task/{uuid}/info`) -/

/-- A JSON option value as carried by `TaskOption.Value interface{}`
(`app/api/odm_routes.go`): JSON null, booleans, strings and numbers. -/
inductive OptValue where
  | vNull
  | vBool (b : Bool)
  | vStr (s : String)
  | vNum (n : Int)
deriving DecidableEq, Repr

/-- `app/api/odm_routes.go` `TaskOption`. -/
structure TaskOption where
  name : String
  value : OptValue
deriving DecidableEq, Repr

/-- Go `fmt.Sprintf("%v", value)` on the JSON values above. -/
def renderValue : OptValue → String
  | .vNull => "<nil>"
  | .vBool true => "true"
  | .vBool false => "false"
  | .vStr s => s
  | .vNum n => toString n

/-- The `task-new-post` handler's per-option translation
(`app/api/odm_routes.go`): `flag := "--" + name`; skip when the value is nil
or `false`; emit `[flag]` for boolean `true`, else `[flag, fmt "%v" value]`. -/
def optionToFlags (opt : TaskOption) : List String :=
  let flag := "--" ++ opt.name
  if opt.value ≠ OptValue.vNull ∧ opt.value ≠ OptValue.vBool false then
    if opt.value = OptValue.vBool true then [flag]
    else [flag, renderValue opt.value]
  else []

/-- Translation of a whole options array to ODM CLI flags. -/
def optionsToODMFlags (opts : List TaskOption) : List String :=
  (opts.map optionToFlags).flatten

/-- The `task-new-post` handler's flag resolution: parse `options` when the
field is present, then default to `["--fast-orthophoto"]` when no flags were
produced. `none` models an omitted/empty `options` field. -/
def submitODMFlags (optionsField : Option (List TaskOption)) : List String :=
  let flags := match optionsField with
    | none => []
    | some opts => optionsToODMFlags opts
  if flags = [] then ["--fast-orthophoto"] else flags

/-- Go `strings.TrimPrefix(flag, "--")` as used by the info handler. -/
def trimFlagDashes (flag : String) : String :=
  if goStartsWith flag "--" then String.mk (flag.data.drop 2) else flag

/-- The `task-uuid-info-get` handler's options rebuild: each stored flag
becomes `{name: flag without leading "--", value: true}`. -/
def rebuildOptions (flags : List String) : List TaskOption :=
  flags.map (fun f => { name := trimFlagDashes f, value := OptValue.vBool true })

/-- The `task-restart-post` handler's (different) option translation:
the flag is always appended, and the value is appended whenever it is
neither nil nor `true`. -/
def restartOptionsToFlags (opts : List TaskOption) : List String :=
  (opts.map (fun opt =>
    let flag := "--" ++ opt.name
    if opt.value ≠ OptValue.vNull ∧ opt.value ≠ OptValue.vBool true then
      [flag, renderValue opt.value]
    else [flag])).flatten

/-! ### Path normalization (`task-new-post` handler) -/

/-- `readPath = strings.TrimSuffix(req.ReadS3Path, "/") + "/"`. -/
def normalizeReadPath (readS3Path : String) : String :=
  goTrimSuffix readS3Path "/" ++ "/"

/-- `writePath`: the supplied write path normalized the same way, or
`strings.TrimSuffix(req.ReadS3Path, "/") + "/output/"` when absent. -/
def resolveWritePath (readS3Path writeS3Path : String) : String :=
  if writeS3Path ≠ "" then goTrimSuffix writeS3Path "/" ++ "/"
  else goTrimSuffix readS3Path "/" ++ "/output/"

/-! ### NodeODM handler embeddings -/

/-- `app/api/odm_routes.go` `TaskInfo` (the `/task/{uuid}/info` response). -/
structure TaskInfo where
  uuid : String
  name : String
  dateCreated : Int
  processingTime : Int
  status : Nat
  options : List TaskOption
  imagesCount : Nat
  progress : Nat
  output : Option (List String)
deriving DecidableEq, Repr

/-- `app/api/odm_routes.go` `Response` (`{success, error}`). -/
structure Response where
  success : Bool
  error : String := ""
deriving DecidableEq, Repr

/-- Go `strings.Split(s, "\n")` used for `with_output` slicing. -/
def goSplitLines (s : String) : List String :=
  s.splitOn "\n"

/-- The `task-uuid-info-get` handler (`app/api/odm_routes.go`).

The handler looks up the metadata row (404 when absent) and builds the
response purely from that row; the workflow engine is consulted only for
console output, and only when `with_output > 0`.  `logs` is the outcome of
that log-retrieval call (an error when the engine is unreachable and the S3
fallback fails); `now` is the current time.  The returned state is the state
after the request. -/
def buildTaskInfo (job : JobRow) (logs : Except String String) (withOutput : Nat)
    (now : Int) : TaskInfo :=
  let info0 : TaskInfo :=
    { uuid := job.workflowName
      name := job.odmProjectID
      dateCreated := job.createdAt
      processingTime := 0
      status := jobStatusToStatusCode job.jobStatus
      options := []
      imagesCount := 0
      progress := jobStatusToProgress job.jobStatus
      output := none }
  let info1 :=
    match job.startedAt with
    | none => info0
    | some startT => { info0 with processingTime := (job.completedAt.getD now) - startT }
  let info2 := { info1 with options := rebuildOptions job.odmFlags }
  if withOutput > 0 then
    match logs with
    | Except.ok content =>
      let lines := goSplitLines content
      if withOutput < lines.length then { info2 with output := some (lines.drop withOutput) }
      else info2
    | Except.error _ => info2
  else info2

/-- Dispatch of the `task-uuid-info-get` handler: 404 without a metadata row,
otherwise a response built from the row, with the state unchanged. -/
def taskInfoGet (st : SystemState) (logs : Except String String) (uuid : String)
    (withOutput : Nat) (now : Int) :
    Except (Nat × String) TaskInfo × SystemState :=
  match getJob st.store uuid with
  | none => (Except.error (404, "Task not found"), st)
  | some job => (Except.ok (buildTaskInfo job logs withOutput now), st)

/-- Metadata deletion tail of the `task-remove-post` handler: a `DeleteJob`
failure is logged as a warning only, and the handler reports success either
way. -/
def removeMetadataAndRespond (st : SystemState) (uuid : String) :
    Except (Nat × String) Response × SystemState :=
  match deleteJob st.store uuid with
  | Except.ok store' => (Except.ok { success := true }, { st with store := store' })
  | Except.error _ => (Except.ok { success := true }, st)

/-- The `task-remove-post` handler (`app/api/odm_routes.go`): delete the
engine object (engine errors other than "not found" are fatal), then delete
the metadata row (failure logged as a warning), then report success. -/
def taskRemovePost (st : SystemState) (uuid : String) :
    Except (Nat × String) Response × SystemState :=
  match engineDelete st.engine uuid with
  | Except.error e =>
    if goContains e "not found" then removeMetadataAndRespond st uuid
    else (Except.error (500, "Failed to remove task"), st)
  | Except.ok engine' => removeMetadataAndRespond { st with engine := engine' } uuid

/-! ### Workflow builder and credentials -/

/-- `app/s3` `S3Credentials`. -/
structure S3Credentials where
  accessKeyID : String
  secretAccessKey : String
  sessionToken : String
deriving DecidableEq, Repr

/-- `app/workflows/standard.go` `ODMPipelineConfig`. -/
structure ODMPipelineConfig where
  odmProjectID : String
  readS3Path : String
  writeS3Path : String
  odmFlags : List String
  s3Region : String
  s3Endpoint : String
  s3Credentials : Option S3Credentials
  serviceAccount : String
  rcloneImage : String
  odmImage : String
deriving DecidableEq, Repr

/-- Default ODM image (`SCALEODM_ODM_IMAGE` default). -/
def odmImageDefault : String := "docker.io/opendronemap/odm:3.5.6"

/-- `app/workflows/standard.go` `NewDefaultODMConfig`: note that
`S3Credentials` is left nil and must be set separately. -/
def NewDefaultODMConfig (odmProjectID readS3Path writeS3Path : String)
    (odmFlags : List String) : ODMPipelineConfig :=
  { odmProjectID := odmProjectID
    readS3Path := readS3Path
    writeS3Path := writeS3Path
    odmFlags := odmFlags
    s3Region := "us-east-1"
    s3Endpoint := ""
    s3Credentials := none
    serviceAccount := "argo-odm"
    rcloneImage := "docker.io/rclone/rclone:1"
    odmImage := odmImageDefault }

/-- `app/workflows/standard.go` `buildODMWorkflow`: panics when
`config.S3Credentials == nil`; otherwise produces the workflow object whose
engine-generated name extends the `odm-pipeline-` generate-name.  The panic
is modeled as an `Except.error` carrying the panic message. -/
def buildODMWorkflow (cfg : ODMPipelineConfig) (generatedSuffix : String) :
    Except String Workflow :=
  match cfg.s3Credentials with
  | none =>
    Except.error
      "panic: S3Credentials must be provided - credentials are required for all S3 operations"
  | some _ => Except.ok { name := "odm-pipeline-" ++ generatedSuffix, phase := "Pending", message := "" }

/-- The `task-restart-post` handler (`app/api/odm_routes.go`): load the row
(a nil row is dereferenced - modeled as a panic), reparse options or reuse
stored flags, delete the old engine object (errors only logged), build a new
workflow from `NewDefaultODMConfig` (credentials are never set on this path),
then delete the old row and insert the new one.  `suffix` is the
engine-generated name suffix; `now`/`newId` feed the inserted row. -/
def taskRestartPost (st : SystemState) (uuid suffix : String)
    (newOptions : Option (List TaskOption)) (newId : Nat) (now : Int) (clusterURL : String) :
    Except String Response × SystemState :=
  match getJob st.store uuid with
  | none => (Except.error "panic: runtime error: invalid memory address or nil pointer dereference", st)
  | some row =>
    let odmFlags :=
      match newOptions with
      | some opts => restartOptionsToFlags opts
      | none => row.odmFlags
    let engine' :=
      match engineDelete st.engine uuid with
      | Except.ok e => e
      | Except.error _ => st.engine
    let wfConfig := NewDefaultODMConfig row.odmProjectID row.readS3Path row.writeS3Path odmFlags
    match buildODMWorkflow wfConfig suffix with
    | Except.error e => (Except.error e, { st with engine := engine' })
    | Except.ok wf =>
      let store' :=
        match deleteJob st.store uuid with
        | Except.ok s' => s'
        | Except.error _ => st.store
      let newRow := createJobRow clusterURL wf.name row.odmProjectID row.readS3Path
        row.writeS3Path odmFlags row.s3Region newId now
      (Except.ok { success := true }, { engine := engine' ++ [wf], store := store' ++ [newRow] })

/-! ### Credential broker (`s3/config.go`) -/

/-- The environment configuration consumed by `s3/config.go`. -/
structure S3Config where
  stsEndpoint : String
  accessKey : String
  secretKey : String
  stsRoleARN : String
deriving DecidableEq, Repr

/-- minio `credentials.STSAssumeRoleOptions` as filled in by `getS3TempCreds`. -/
structure STSAssumeRoleOptions where
  roleARN : String
  roleSessionName : String
  durationSeconds : Nat
  accessKey : String
  secretKey : String
deriving DecidableEq, Repr

/-- The credential value returned by the STS service
(`credentials.Value`: access key, secret key, session token). -/
structure STSCredentialValue where
  accessKeyID : String
  secretAccessKey : String
  sessionToken : String
deriving DecidableEq, Repr

/-- The `AssumeRole` options built by `s3/config.go` `getS3TempCreds`:
session name `"odm-job-" + uuid.New()` (`uuid` is the fresh UUID drawn for
this call), duration 86400 seconds (24 hours). -/
def getS3TempCredsOptions (cfg : S3Config) (uuid : String) : STSAssumeRoleOptions :=
  { roleARN := cfg.stsRoleARN
    roleSessionName := "odm-job-" ++ uuid
    durationSeconds := 86400
    accessKey := cfg.accessKey
    secretKey := cfg.secretKey }

/-- `s3/config.go` `getS3TempCreds`: invokes the STS service (modeled as the
function `sts`) on the options above and returns
`(credsValue.AccessKeyID, credsValue.SecretAccessKey)` - a PAIR; the
`SessionToken` of the credential value is not returned. -/
def getS3TempCreds (cfg : S3Config) (uuid : String)
    (sts : STSAssumeRoleOptions → STSCredentialValue) : String × String :=
  let credsValue := sts (getS3TempCredsOptions cfg uuid)
  (credsValue.accessKeyID, credsValue.secretAccessKey)

/-- `s3/config.go` `GetS3JobCreds`: STS path when a role ARN is configured,
else the static pair from the environment. -/
def GetS3JobCreds (cfg : S3Config) (uuid : String)
    (sts : STSAssumeRoleOptions → STSCredentialValue) : String × String :=
  if cfg.stsRoleARN ≠ "" then getS3TempCreds cfg uuid sts
  else (cfg.accessKey, cfg.secretKey)

/-! ### Concrete states used by closed counterexamples and witnesses -/

/-- A concrete metadata row in status `pending` (fresh submission). -/
def sampleRow : JobRow :=
  createJobRow "http://localhost:31100" "odm-pipeline-abc" "test-project"
    "s3://bucket/images/" "s3://bucket/images/output/" ["--fast-orthophoto"]
    "us-east-1" 1 100

/-- A state whose engine object for `odm-pipeline-abc` is `Running` while the
metadata row still says `pending`. -/
def runningState : SystemState :=
  { engine := [{ name := "odm-pipeline-abc", phase := "Running", message := "" }]
    store := [sampleRow] }

/-- A state holding both the engine object and the metadata row for
`odm-pipeline-abc` (input of the first `remove`). -/
def removeState : SystemState :=
  { engine := [{ name := "odm-pipeline-abc", phase := "Succeeded", message := "" }]
    store := [sampleRow] }

/-- A fresh row used by the C4 witness (both timestamps null). -/
def c4Row : JobRow := sampleRow

/-- `c4Row` after `started_at` was set to 5. -/
def c4RowStarted : JobRow := { c4Row with startedAt := some 5 }

/-- `c4Row` after `completed_at` was set to 9. -/
def c4RowCompleted : JobRow := { c4Row with completedAt := some 9 }

/-- A concrete broker environment with a role ARN configured and a static
pair available. -/
def sampleS3Config : S3Config :=
  { stsEndpoint := ""
    accessKey := "AKIASTATIC"
    secretKey := "STATICSECRET"
    stsRoleARN := "arn:aws:iam::123456789012:role/scaleodm" }

/-- A concrete STS service returning a full triple. -/
def sampleSTS : STSAssumeRoleOptions → STSCredentialValue :=
  fun _ => { accessKeyID := "ASIATEMP", secretAccessKey := "TEMPSECRET", sessionToken := "TEMPTOKEN" }

end ScaleODM

namespace ScaleODM

/-! ### First claims about the mappings -/

/-- C1: the spec's table says engine phase `Pending` maps to internal status
`queued`; the code's `MapArgoPhaseToJobStatus` returns `"pending"` instead
(its own unit test `TestMapArgoPhaseToJobStatus` expects `"queued"`), while
the `jobStatusToStatusCode` half of the table does hold
(`queued`→10 via the default arm, `running`→20, `completed`→40, `failed`→30). -/
theorem C1_phase_mapping_pending_not_queued :
    MapArgoPhaseToJobStatus "Pending" = "pending" ∧
    MapArgoPhaseToJobStatus "Pending" ≠ "queued" ∧
    MapArgoPhaseToJobStatus "Running" = "running" ∧
    MapArgoPhaseToJobStatus "Succeeded" = "completed" ∧
    MapArgoPhaseToJobStatus "Failed" = "failed" ∧
    MapArgoPhaseToJobStatus "Error" = "failed" ∧
    jobStatusToStatusCode "queued" = 10 ∧
    jobStatusToStatusCode "running" = 20 ∧
    jobStatusToStatusCode "completed" = 40 ∧
    jobStatusToStatusCode "failed" = 30 := by
  decide

/-- C5: the claim says a row inserted by `CreateJob` has initial
`job_status = queued`; the schema default (`app/db/schema.sql`) is
`'pending'`, so the inserted row carries `"pending"`
(the repo's own `TestCreateJob` asserts `"queued"`). -/
theorem C5_create_job_initial_status_is_pending :
    (createJobRow "http://localhost:31100" "odm-pipeline-x" "test-project"
        "s3://bucket/images/" "s3://bucket/output/" ["--fast-orthophoto"]
        "us-east-1" 1 0).jobStatus = "pending" ∧
    ("pending" : String) ≠ "queued" := by
  decide

end ScaleODM

namespace ScaleODM

/-! ### Helper lemmas -/

/-- `"/"` as a character list. -/
lemma slash_data : ("/" : String).data = ['/'] := rfl

/-- Rebuilding a string from its character list. -/
lemma mk_data (s : String) : String.mk s.data = s := rfl

/-- Appending a `"/"` always yields a string with the `"/"` suffix. -/
lemma goHasSuffix_append_slash (s : String) : goHasSuffix (s ++ "/") "/" = true := by
  simp [goHasSuffix, String.data_append, slash_data, List.drop_left]

/-- `strings.TrimSuffix` undoes the appended `"/"`. -/
lemma goTrimSuffix_append_slash (s : String) : goTrimSuffix (s ++ "/") "/" = s := by
  simp [goTrimSuffix, goHasSuffix_append_slash, String.data_append, slash_data,
    List.take_left, mk_data]

/-- A string ending in `'/'` has the `"/"` suffix. -/
lemma goHasSuffix_slash_of_getLast (s : String) (h : s.data.getLast? = some '/') :
    goHasSuffix s "/" = true := by
  rcases List.eq_nil_or_concat s.data with h0 | ⟨l', a, hc⟩
  · rw [h0] at h; simp at h
  · have hc' : s.data = l' ++ [a] := by simpa [List.concat_eq_append] using hc
    have ha : a = '/' := by
      rw [hc'] at h
      simpa [List.getLast?_concat] using h
    subst ha
    simp [goHasSuffix, hc', slash_data, List.drop_left]

/-- Contrapositive: no `"/"` suffix means the last character is not `'/'`. -/
lemma getLast_ne_slash (s : String) (h : goHasSuffix s "/" = false) :
    s.data.getLast? ≠ some '/' := by
  intro hl
  rw [goHasSuffix_slash_of_getLast s hl] at h
  exact Bool.noConfusion h

/-- `strings.TrimSuffix` is the identity without the suffix. -/
lemma goTrimSuffix_slash_id (s : String) (h : goHasSuffix s "/" = false) :
    goTrimSuffix s "/" = s := by
  simp [goTrimSuffix, h]

/-- Appending one `'/'` to a string not ending in `'/'` yields exactly one
trailing slash. -/
lemma trailingSlashCount_append_slash (s : String) (h : s.data.getLast? ≠ some '/') :
    trailingSlashCount (s ++ "/") = 1 := by
  unfold trailingSlashCount
  rw [String.data_append, slash_data, List.reverse_append]
  have hhead : s.data.reverse.takeWhile (fun c => c == '/') = [] := by
    cases hr : s.data.reverse with
    | nil => rfl
    | cons a t =>
      have ha : a ≠ '/' := by
        intro haeq
        apply h
        rw [← List.head?_reverse, hr, haeq]
        rfl
      simp [List.takeWhile_cons, ha]
  simp [List.takeWhile_cons, hhead]

/-- A list contains any of its suffixes as a substring. -/
lemma listContainsSub_append (x nf : List Char) : listContainsSub (x ++ nf) nf = true := by
  induction x with
  | nil =>
    cases nf with
    | nil => rfl
    | cons a t => simp [listContainsSub, List.isPrefixOf_iff_prefix]
  | cons a t ih => simp [listContainsSub, ih]

/-- The engine's delete error always passes the handlers' "not found" test. -/
lemma goContains_workflowNotFoundErr (name : String) :
    goContains (workflowNotFoundErr name) "not found" = true := by
  have hsp : (" not found" : String).data = ' ' :: ("not found" : String).data := rfl
  have h : (workflowNotFoundErr name).data
      = ((("failed to delete workflow: " : String).data ++ name.data) ++ [' '])
        ++ ("not found" : String).data := by
    show (("failed to delete workflow: " ++ name) ++ " not found").data = _
    rw [String.data_append, String.data_append, hsp, List.append_cons]
  rw [goContains, h]
  exact listContainsSub_append _ _

/-- An absent row survives `DeleteJob` untouched: the `DELETE` affects zero
rows and the call errors. -/
lemma deleteJob_absent (store : List JobRow) (name : String)
    (h : getJob store name = none) :
    deleteJob store name = Except.error "job not found" := by
  have hall : ∀ r ∈ store, ¬ (r.workflowName == name) = true :=
    List.find?_eq_none.mp h
  simp [deleteJob]
  intro x hx
  simpa using hall x hx

/-- A `started_at` already set survives one `UpdateJobStatus`. -/
lemma updateJobStatusRow_startedAt_preserved (r : JobRow) (s : String)
    (e : Option String) (t t0 : Int) (h : r.startedAt = some t0) :
    (updateJobStatusRow r s e t).startedAt = some t0 := by
  simp [updateJobStatusRow, h]

/-- A `completed_at` already set survives one `UpdateJobStatus`. -/
lemma updateJobStatusRow_completedAt_preserved (r : JobRow) (s : String)
    (e : Option String) (t t0 : Int) (h : r.completedAt = some t0) :
    (updateJobStatusRow r s e t).completedAt = some t0 := by
  simp [updateJobStatusRow, h]

/-- A `started_at` already set survives any sequence of `UpdateJobStatus`. -/
lemma applyStatusUpdates_startedAt_preserved (us : List StatusUpdate) :
    ∀ (r : JobRow) (t0 : Int), r.startedAt = some t0 →
      (applyStatusUpdates r us).startedAt = some t0 := by
  induction us with
  | nil => intro r t0 h; simpa [applyStatusUpdates] using h
  | cons u us ih =>
    intro r t0 h
    have h1 := updateJobStatusRow_startedAt_preserved r u.status u.errorMsg u.now t0 h
    simpa [applyStatusUpdates, List.foldl_cons] using
      ih (updateJobStatusRow r u.status u.errorMsg u.now) t0 h1

/-- A `completed_at` already set survives any sequence of `UpdateJobStatus`. -/
lemma applyStatusUpdates_completedAt_preserved (us : List StatusUpdate) :
    ∀ (r : JobRow) (t0 : Int), r.completedAt = some t0 →
      (applyStatusUpdates r us).completedAt = some t0 := by
  induction us with
  | nil => intro r t0 h; simpa [applyStatusUpdates] using h
  | cons u us ih =>
    intro r t0 h
    have h1 := updateJobStatusRow_completedAt_preserved r u.status u.errorMsg u.now t0 h
    simpa [applyStatusUpdates, List.foldl_cons] using
      ih (updateJobStatusRow r u.status u.errorMsg u.now) t0 h1

/-- Two consecutive `UpdateJobStatus` calls with the same status agree with a
single call on both timestamp columns. -/
lemma updateJobStatusRow_idem_timestamps (r : JobRow) (s : String)
    (e1 e2 : Option String) (t1 t2 : Int) :
    (updateJobStatusRow (updateJobStatusRow r s e1 t1) s e2 t2).startedAt =
      (updateJobStatusRow r s e1 t1).startedAt ∧
    (updateJobStatusRow (updateJobStatusRow r s e1 t1) s e2 t2).completedAt =
      (updateJobStatusRow r s e1 t1).completedAt := by
  constructor
  · by_cases hs : s = "running"
    · subst hs
      cases hr : r.startedAt <;> simp [updateJobStatusRow, hr]
    · simp [updateJobStatusRow, hs]
  · by_cases hc : s = "completed" ∨ s = "failed"
    · cases hr : r.completedAt <;> simp [updateJobStatusRow, hc, hr]
    · simp [updateJobStatusRow, hc]

/-- The response fields of `buildTaskInfo` that come straight from the row
are independent of the console-output parameters. -/
lemma buildTaskInfo_fields (job : JobRow) (logs : Except String String)
    (wo : Nat) (now : Int) :
    (buildTaskInfo job logs wo now).uuid = job.workflowName ∧
    (buildTaskInfo job logs wo now).name = job.odmProjectID ∧
    (buildTaskInfo job logs wo now).dateCreated = job.createdAt ∧
    (buildTaskInfo job logs wo now).status = jobStatusToStatusCode job.jobStatus ∧
    (buildTaskInfo job logs wo now).progress = jobStatusToProgress job.jobStatus ∧
    (buildTaskInfo job logs wo now).options = rebuildOptions job.odmFlags ∧
    (buildTaskInfo job logs wo now).imagesCount = 0 := by
  unfold buildTaskInfo
  cases job.startedAt <;> cases logs <;> dsimp only <;> split <;> try split
  all_goals simp

end ScaleODM

namespace ScaleODM

/-! ### Claims about the handlers -/

/-- C2 (counterexample): at a state whose engine object for
`odm-pipeline-abc` is `Running` while the metadata row says `pending`, the
`task-uuid-info-get` handler leaves the store untouched - the row still says
`pending` after the request even though the engine phase maps to `running`,
so the claimed reconciliation write does not happen. -/
theorem C2_info_reconciliation_counterexample :
    engineGet runningState.engine "odm-pipeline-abc"
      = some { name := "odm-pipeline-abc", phase := "Running", message := "" } ∧
    MapArgoPhaseToJobStatus "Running" = "running" ∧
    (taskInfoGet runningState (Except.ok "") "odm-pipeline-abc" 0 100).2 = runningState ∧
    (getJob (taskInfoGet runningState (Except.ok "") "odm-pipeline-abc" 0 100).2.store
        "odm-pipeline-abc").map JobRow.jobStatus = some "pending" ∧
    ("pending" : String) ≠ "running" :=
  ⟨rfl, rfl, rfl, rfl, by decide⟩

/-- C2 (amended): the `task-uuid-info-get` handler performs no reconciliation
at all - for every state, log outcome and request, the store and engine are
returned unchanged; the engine phase is never mapped into the row
(reconciliation exists only on the separate v1 `get-job` endpoint). -/
theorem C2_info_no_reconciliation :
    ∀ (st : SystemState) (logs : Except String String) (uuid : String)
      (withOutput : Nat) (now : Int),
      (taskInfoGet st logs uuid withOutput now).2 = st := by
  intro st logs uuid withOutput now
  unfold taskInfoGet
  cases h : getJob st.store uuid <;> simp

/-- C3: `GET /task/{uuid}/info` returns 404 exactly when the metadata row is
absent; when the row exists the read succeeds with a `TaskInfo` built from
the row, for every outcome of the log-retrieval call (in particular when the
engine is unreachable or the workflow was garbage-collected). -/
theorem C3_info_read (st : SystemState) (logs : Except String String) (uuid : String)
    (withOutput : Nat) (now : Int) :
    (getJob st.store uuid = none →
      (taskInfoGet st logs uuid withOutput now).1 = Except.error (404, "Task not found")) ∧
    (∀ row, getJob st.store uuid = some row →
      ∃ info, (taskInfoGet st logs uuid withOutput now).1 = Except.ok info ∧
        info.uuid = row.workflowName ∧
        info.name = row.odmProjectID ∧
        info.dateCreated = row.createdAt ∧
        info.status = jobStatusToStatusCode row.jobStatus ∧
        info.progress = jobStatusToProgress row.jobStatus ∧
        info.options = rebuildOptions row.odmFlags ∧
        info.imagesCount = 0) := by
  constructor
  · intro h
    simp [taskInfoGet, h]
  · intro row h
    refine ⟨buildTaskInfo row logs withOutput now, by simp [taskInfoGet, h], ?_⟩
    have hf := buildTaskInfo_fields row logs withOutput now
    exact ⟨hf.1, hf.2.1, hf.2.2.1, hf.2.2.2.1, hf.2.2.2.2.1, hf.2.2.2.2.2.1, hf.2.2.2.2.2.2⟩

/-- Witness for C3: a 404 on an empty store, and a successful metadata-only
read at `runningState` while the engine call errors ("engine unreachable"). -/
theorem C3_info_read_witness :
    ((taskInfoGet { engine := [], store := [] } (Except.error "engine unreachable")
        "odm-pipeline-missing" 0 0).1 = Except.error (404, "Task not found")) ∧
    (∃ info, (taskInfoGet runningState (Except.error "engine unreachable")
        "odm-pipeline-abc" 0 100).1 = Except.ok info ∧
      info.uuid = sampleRow.workflowName ∧
      info.name = sampleRow.odmProjectID ∧
      info.dateCreated = sampleRow.createdAt ∧
      info.status = jobStatusToStatusCode sampleRow.jobStatus ∧
      info.progress = jobStatusToProgress sampleRow.jobStatus ∧
      info.options = rebuildOptions sampleRow.odmFlags ∧
      info.imagesCount = 0) :=
  ⟨(C3_info_read { engine := [], store := [] } (Except.error "engine unreachable")
      "odm-pipeline-missing" 0 0).1 rfl,
   (C3_info_read runningState (Except.error "engine unreachable")
      "odm-pipeline-abc" 0 100).2 sampleRow rfl⟩

/-- C4: `UpdateJobStatus` sets `started_at` exactly on a call with status
`running` while it is null, sets `completed_at` exactly on a call with status
`completed`/`failed` while it is null, never overwrites either once set (over
any sequence of further calls), and calling it twice with the same status is
observably identical to calling it once for the timestamp columns. -/
theorem C4_update_job_status_timestamps :
    (∀ (r : JobRow) (e : Option String) (t : Int),
      r.startedAt = none → (updateJobStatusRow r "running" e t).startedAt = some t) ∧
    (∀ (r : JobRow) (s : String) (e : Option String) (t : Int),
      r.startedAt = none → s ≠ "running" →
        (updateJobStatusRow r s e t).startedAt = none) ∧
    (∀ (r : JobRow) (us : List StatusUpdate) (t0 : Int),
      r.startedAt = some t0 → (applyStatusUpdates r us).startedAt = some t0) ∧
    (∀ (r : JobRow) (s : String) (e : Option String) (t : Int),
      r.completedAt = none → (s = "completed" ∨ s = "failed") →
        (updateJobStatusRow r s e t).completedAt = some t) ∧
    (∀ (r : JobRow) (s : String) (e : Option String) (t : Int),
      r.completedAt = none → ¬ (s = "completed" ∨ s = "failed") →
        (updateJobStatusRow r s e t).completedAt = none) ∧
    (∀ (r : JobRow) (us : List StatusUpdate) (t0 : Int),
      r.completedAt = some t0 → (applyStatusUpdates r us).completedAt = some t0) ∧
    (∀ (r : JobRow) (s : String) (e1 e2 : Option String) (t1 t2 : Int),
      (updateJobStatusRow (updateJobStatusRow r s e1 t1) s e2 t2).startedAt =
        (updateJobStatusRow r s e1 t1).startedAt ∧
      (updateJobStatusRow (updateJobStatusRow r s e1 t1) s e2 t2).completedAt =
        (updateJobStatusRow r s e1 t1).completedAt) := by
  refine ⟨?_, ?_, ?_, ?_, ?_, ?_, ?_⟩
  · intro r e t h
    simp [updateJobStatusRow, h]
  · intro r s e t h hs
    simp [updateJobStatusRow, h, hs]
  · intro r us t0 h
    exact applyStatusUpdates_startedAt_preserved us r t0 h
  · intro r s e t h hc
    simp [updateJobStatusRow, h, hc]
  · intro r s e t h hc
    simp [updateJobStatusRow, h, hc]
  · intro r us t0 h
    exact applyStatusUpdates_completedAt_preserved us r t0 h
  · intro r s e1 e2 t1 t2
    exact updateJobStatusRow_idem_timestamps r s e1 e2 t1 t2

/-- Witness for C4 at a concrete row and concrete update sequences. -/
theorem C4_update_job_status_timestamps_witness :
    (updateJobStatusRow c4Row "running" none 5).startedAt = some 5 ∧
    (updateJobStatusRow c4Row "pending" none 5).startedAt = none ∧
    (applyStatusUpdates c4RowStarted
      [{ status := "completed", errorMsg := none, now := 9 }]).startedAt = some 5 ∧
    (updateJobStatusRow c4Row "completed" none 7).completedAt = some 7 ∧
    (updateJobStatusRow c4Row "running" none 7).completedAt = none ∧
    (applyStatusUpdates c4RowCompleted
      [{ status := "failed", errorMsg := some "x", now := 11 }]).completedAt = some 9 ∧
    ((updateJobStatusRow (updateJobStatusRow c4Row "running" none 5) "running" none 6).startedAt
        = (updateJobStatusRow c4Row "running" none 5).startedAt ∧
      (updateJobStatusRow (updateJobStatusRow c4Row "running" none 5) "running" none 6).completedAt
        = (updateJobStatusRow c4Row "running" none 5).completedAt) :=
  ⟨C4_update_job_status_timestamps.1 c4Row none 5 rfl,
   C4_update_job_status_timestamps.2.1 c4Row "pending" none 5 rfl (by decide),
   C4_update_job_status_timestamps.2.2.1 c4RowStarted
     [{ status := "completed", errorMsg := none, now := 9 }] 5 rfl,
   C4_update_job_status_timestamps.2.2.2.1 c4Row "completed" none 7 rfl (Or.inl rfl),
   C4_update_job_status_timestamps.2.2.2.2.1 c4Row "running" none 7 rfl (by decide),
   C4_update_job_status_timestamps.2.2.2.2.2.1 c4RowCompleted
     [{ status := "failed", errorMsg := some "x", now := 11 }] 9 rfl,
   C4_update_job_status_timestamps.2.2.2.2.2.2 c4Row "running" none none 5 6⟩

end ScaleODM

namespace ScaleODM

/-! ### Claims about paths, options, removal, credentials and restart -/

/-- C6 (counterexample): the accepted client path `"s3://bucket/in//"` (it
starts with `s3://`) is stored with TWO trailing slashes, because
`strings.TrimSuffix` strips only one `"/"` before the handler re-appends one;
so the stored read path does not end in exactly one `/`. -/
theorem C6_trailing_slash_counterexample :
    goStartsWith "s3://bucket/in//" "s3://" = true ∧
    normalizeReadPath "s3://bucket/in//" = "s3://bucket/in//" ∧
    trailingSlashCount (normalizeReadPath "s3://bucket/in//") = 2 ∧
    trailingSlashCount (normalizeReadPath "s3://bucket/in//") ≠ 1 ∧
    resolveWritePath "s3://bucket/in//" "" = "s3://bucket/in//output/" := by
  refine ⟨by decide, by decide, by decide, by decide, by decide⟩

/-- C6 (amended): the handler stores `strings.TrimSuffix(path, "/") + "/"`,
which ends in exactly one `/` whenever the client supplied at most one
trailing slash (the two accepted shapes `s` and `s ++ "/"` with `s` not
ending in `/`); with no write path supplied, the stored write path is
`strings.TrimSuffix(read, "/") + "/output/"`, which equals the normalized
read prefix followed by `output/` for those same client shapes. -/
theorem C6_path_normalization_amended (s : String) (h : goHasSuffix s "/" = false) :
    normalizeReadPath s = s ++ "/" ∧
    normalizeReadPath (s ++ "/") = s ++ "/" ∧
    trailingSlashCount (normalizeReadPath s) = 1 ∧
    resolveWritePath s "" = s ++ "/output/" ∧
    resolveWritePath (s ++ "/") "" = s ++ "/output/" ∧
    resolveWritePath s "" = normalizeReadPath s ++ "output/" ∧
    (∀ w, goHasSuffix w "/" = false → w ≠ "" →
      resolveWritePath s w = w ++ "/" ∧
      resolveWritePath s (w ++ "/") = w ++ "/" ∧
      trailingSlashCount (w ++ "/") = 1) := by
  have htrim : goTrimSuffix s "/" = s := goTrimSuffix_slash_id s h
  have hlast : s.data.getLast? ≠ some '/' := getLast_ne_slash s h
  have h1 : normalizeReadPath s = s ++ "/" := by
    simp [normalizeReadPath, htrim]
  have h2 : normalizeReadPath (s ++ "/") = s ++ "/" := by
    simp [normalizeReadPath, goTrimSuffix_append_slash]
  have h3 : trailingSlashCount (normalizeReadPath s) = 1 := by
    rw [h1]
    exact trailingSlashCount_append_slash s hlast
  have h4 : resolveWritePath s "" = s ++ "/output/" := by
    simp [resolveWritePath, htrim]
  have h5 : resolveWritePath (s ++ "/") "" = s ++ "/output/" := by
    simp [resolveWritePath, goTrimSuffix_append_slash]
  have h6 : resolveWritePath s "" = normalizeReadPath s ++ "output/" := by
    have lit : ("/" : String) ++ "output/" = "/output/" := by decide
    rw [h4, h1, String.append_assoc, lit]
  refine ⟨h1, h2, h3, h4, h5, h6, ?_⟩
  intro w hw hwne
  have hwtrim : goTrimSuffix w "/" = w := goTrimSuffix_slash_id w hw
  have hwlast : w.data.getLast? ≠ some '/' := getLast_ne_slash w hw
  refine ⟨?_, ?_, trailingSlashCount_append_slash w hwlast⟩
  · simp [resolveWritePath, hwne, hwtrim]
  · have hne : w ++ "/" ≠ "" := by
      intro hcontra
      have hd := congrArg String.data hcontra
      have hempty : ("" : String).data = [] := rfl
      rw [String.data_append, slash_data, hempty] at hd
      simp at hd
    simp [resolveWritePath, hne, goTrimSuffix_append_slash]

/-- Witness for C6 (amended) at the client path `"s3://bucket/in"`. -/
theorem C6_path_normalization_amended_witness :
    normalizeReadPath "s3://bucket/in" = "s3://bucket/in" ++ "/" ∧
    normalizeReadPath ("s3://bucket/in" ++ "/") = "s3://bucket/in" ++ "/" ∧
    trailingSlashCount (normalizeReadPath "s3://bucket/in") = 1 ∧
    resolveWritePath "s3://bucket/in" "" = "s3://bucket/in" ++ "/output/" :=
  ⟨(C6_path_normalization_amended "s3://bucket/in" (by decide)).1,
   (C6_path_normalization_amended "s3://bucket/in" (by decide)).2.1,
   (C6_path_normalization_amended "s3://bucket/in" (by decide)).2.2.1,
   (C6_path_normalization_amended "s3://bucket/in" (by decide)).2.2.2.1⟩

/-- C7: the submit handler turns a boolean-true option into `--name`, a
non-boolean (non-null) option into `--name <value>`, omits a false option,
defaults to `--fast-orthophoto` when the options field is omitted, and the
concrete option `[{dsm, true}]` round-trips through the stored flags
`["--dsm"]` back to `[{dsm, true}]` via the info handler's rebuild. -/
theorem C7_options_translation_roundtrip :
    (∀ name : String,
      optionToFlags { name := name, value := OptValue.vBool true } = ["--" ++ name]) ∧
    (∀ (name : String) (v : OptValue), v ≠ OptValue.vNull → (∀ b, v ≠ OptValue.vBool b) →
      optionToFlags { name := name, value := v } = ["--" ++ name, renderValue v]) ∧
    (∀ name : String,
      optionToFlags { name := name, value := OptValue.vBool false } = []) ∧
    submitODMFlags none = ["--fast-orthophoto"] ∧
    submitODMFlags (some [{ name := "dsm", value := OptValue.vBool true }]) = ["--dsm"] ∧
    rebuildOptions (submitODMFlags (some [{ name := "dsm", value := OptValue.vBool true }]))
      = [{ name := "dsm", value := OptValue.vBool true }] := by
  refine ⟨?_, ?_, ?_, rfl, by decide, by decide⟩
  · intro name
    simp [optionToFlags]
  · intro name v h0 hb
    have h1 : v ≠ OptValue.vBool false := hb false
    have h2 : v ≠ OptValue.vBool true := hb true
    simp [optionToFlags, h0, h1, h2]
  · intro name
    simp [optionToFlags]

/-- Witness for C7 at concrete options. -/
theorem C7_options_translation_roundtrip_witness :
    optionToFlags { name := "dsm", value := OptValue.vBool true } = ["--" ++ "dsm"] ∧
    optionToFlags { name := "orthophoto-resolution", value := OptValue.vNum 5 }
      = ["--" ++ "orthophoto-resolution", renderValue (OptValue.vNum 5)] ∧
    optionToFlags { name := "dtm", value := OptValue.vBool false } = [] :=
  ⟨C7_options_translation_roundtrip.1 "dsm",
   C7_options_translation_roundtrip.2.1 "orthophoto-resolution" (OptValue.vNum 5)
     (by decide) (fun b => by cases b <;> decide),
   C7_options_translation_roundtrip.2.2.1 "dtm"⟩

/-- C8 (counterexample): after a successful remove of `odm-pipeline-abc`
(engine object and metadata row both gone), a second `POST /task/remove`
with the same uuid still returns `{success:true}` - not a 4xx/5xx error -
because the handler ignores the engine's "not found" and only logs the
`DeleteJob` failure. -/
theorem C8_second_remove_counterexample :
    (taskRemovePost removeState "odm-pipeline-abc").1 = Except.ok { success := true } ∧
    getJob (taskRemovePost removeState "odm-pipeline-abc").2.store "odm-pipeline-abc" = none ∧
    engineGet (taskRemovePost removeState "odm-pipeline-abc").2.engine "odm-pipeline-abc" = none ∧
    (taskRemovePost (taskRemovePost removeState "odm-pipeline-abc").2 "odm-pipeline-abc").1
      = Except.ok { success := true } :=
  ⟨rfl, rfl, rfl, rfl⟩

/-- C8 (amended): on a state holding neither the engine object nor the
metadata row, `POST /task/remove` returns `{success:true}` with the state
unchanged, even though the store's `DeleteJob` itself fails with
"job not found" - the handler logs that failure as a warning only. -/
theorem C8_second_remove_amended (st : SystemState) (uuid : String)
    (heng : engineGet st.engine uuid = none) (hrow : getJob st.store uuid = none) :
    (taskRemovePost st uuid).1 = Except.ok { success := true } ∧
    (taskRemovePost st uuid).2 = st ∧
    deleteJob st.store uuid = Except.error "job not found" := by
  have hdel : deleteJob st.store uuid = Except.error "job not found" :=
    deleteJob_absent st.store uuid hrow
  have hengdel : engineDelete st.engine uuid = Except.error (workflowNotFoundErr uuid) := by
    simp [engineDelete, heng]
  refine ⟨?_, ?_, hdel⟩ <;>
    simp [taskRemovePost, hengdel, goContains_workflowNotFoundErr,
      removeMetadataAndRespond, hdel]

/-- Witness for C8 (amended) on the empty state. -/
theorem C8_second_remove_amended_witness :
    (taskRemovePost { engine := [], store := [] } "odm-pipeline-abc").1
      = Except.ok { success := true } ∧
    (taskRemovePost { engine := [], store := [] } "odm-pipeline-abc").2
      = { engine := [], store := [] } ∧
    deleteJob ([] : List JobRow) "odm-pipeline-abc" = Except.error "job not found" :=
  C8_second_remove_amended { engine := [], store := [] } "odm-pipeline-abc" rfl rfl

/-- C9: with a role ARN configured and a static pair available,
`getS3TempCreds` does invoke `AssumeRole` with a 24-hour duration and a
session name derived injectively from the per-call fresh UUID - but it
returns only the (access key, secret key) PAIR: the session token of the
STS credential value (here `"TEMPTOKEN"`) is discarded, contradicting the
claimed triple (and the repository's STS design doc). -/
theorem C9_sts_session_token_discarded :
    (getS3TempCredsOptions sampleS3Config "3f2a").durationSeconds = 86400 ∧
    (getS3TempCredsOptions sampleS3Config "3f2a").roleSessionName = "odm-job-3f2a" ∧
    (getS3TempCredsOptions sampleS3Config "3f2a").roleSessionName
      ≠ (getS3TempCredsOptions sampleS3Config "77b1").roleSessionName ∧
    sampleSTS (getS3TempCredsOptions sampleS3Config "3f2a")
      = { accessKeyID := "ASIATEMP", secretAccessKey := "TEMPSECRET",
          sessionToken := "TEMPTOKEN" } ∧
    GetS3JobCreds sampleS3Config "3f2a" sampleSTS = ("ASIATEMP", "TEMPSECRET") := by
  refine ⟨rfl, by decide, by decide, rfl, by decide⟩

/-- C10: for a uuid whose metadata row exists, `POST /task/restart` never
resolves credentials, so `buildODMWorkflow` hits its nil-credentials panic on
every restart instead of submitting a fresh workflow and returning success. -/
theorem C10_restart_panics_on_nil_credentials :
    getJob runningState.store "odm-pipeline-abc" = some sampleRow ∧
    (NewDefaultODMConfig sampleRow.odmProjectID sampleRow.readS3Path
        sampleRow.writeS3Path sampleRow.odmFlags).s3Credentials = none ∧
    (taskRestartPost runningState "odm-pipeline-abc" "xyz" none 2 200
        "http://localhost:31100").1
      = Except.error
        "panic: S3Credentials must be provided - credentials are required for all S3 operations" :=
  ⟨rfl, rfl, rfl⟩

end ScaleODM
